import Mathlib

/-!
Shallow embedding of the gorm-logrus adapter (src/logger.go) in Lean 4.

Modelling conventions:
  * `time.Duration` and timestamps are `Int` nanoseconds (Go's int64; none of
    the verified claims involve int64 overflow).
  * A `*logrus.Logger` is identified by an abstract reference `SinkRef`
    (pointer identity); a possibly-nil pointer is `Option SinkRef`.
  * `context.Context` is opaque: `Context := Nat` (identity only).
  * The variadic `...interface{}` arguments are opaque values: `GoValue := Nat`.
  * Calls on the logrus sink are reified as data: `Logger.Info/Warn/Error`
    return the list of leveled calls they forward (each carrying the format
    string and arguments exactly as handed to logrus), and `Logger.Trace`
    returns the list of `TraceEvent`s produced by a call — an `invoke` event
    for each invocation of the lazy callback `fc`, and an `emit` event for
    each structured emission with its level, fields and rendered message.
  * `utils.FileWithLineNum()` (runtime caller introspection) is modelled as
    the distinguished field value `FieldVal.fileWithLineNum`.
  * Go's `%.3f` on `float64(elapsed.Nanoseconds())/1e6` is modelled as exact
    rational rounding (round half to even) of nanoseconds to microseconds,
    rendered with three decimal places; binary-float artifacts at extreme
    magnitudes are abstracted away.
  * `%v` on a `time.Duration` (used for the slow-query tag) is translated
    from Go's `time.Duration.String`.
-/

namespace GormLogrus

/-- Identity of an external `*logrus.Logger` sink. -/
abbrev SinkRef := Nat

/-- A possibly-nil `*logrus.Logger` pointer. -/
abbrev OptSinkRef := Option SinkRef

/-- `logrus.StandardLogger()`: the process-wide default logger instance. -/
def standardLogger : SinkRef := 0

/-- Opaque `context.Context`. -/
abbrev Context := Nat

/-- Opaque `interface\x7b\x7d` argument value. -/
abbrev GoValue := Nat

/-- `gorm/logger.LogLevel` (an integer type in Go). -/
abbrev LogLevel := Int

/-- A Go error value reaching `Trace`; `errors.Is(err, gorm.ErrRecordNotFound)`
only distinguishes the record-not-found sentinel from everything else. -/
inductive GoError where
  | recordNotFound
  | other (msg : String)
deriving DecidableEq, Repr

/-- `errors.Is(err, gorm.ErrRecordNotFound)` for a non-nil error. -/
def errorsIsRecordNotFound : GoError → Bool
  | GoError.recordNotFound => true
  | GoError.other _ => false

/-- `gorm/logger.Config` (the configuration value owned by the adapter). -/
structure Config where
  SlowThreshold : Int
  Colorful : Bool
  IgnoreRecordNotFoundError : Bool
  ParameterizedQueries : Bool
  LogLevel : LogLevel
deriving DecidableEq, Repr

/-- The zero value of `gorm/logger.Config`. -/
def zeroConfig : Config :=
  { SlowThreshold := 0, Colorful := false, IgnoreRecordNotFoundError := false,
    ParameterizedQueries := false, LogLevel := 0 }

/-- The `Logger` struct of src/logger.go: a sink handle and a config copy. -/
structure Logger where
  log : OptSinkRef
  cfg : Config
deriving DecidableEq, Repr

/-- Severity of a forwarded logrus call. -/
inductive Level where
  | debug
  | info
  | warn
  | error
deriving DecidableEq, Repr

/-- A structured-field value attached to a trace emission. -/
inductive FieldVal where
  | fileWithLineNum
  | errVal (e : Option GoError)
  | str (s : String)
deriving DecidableEq, Repr

/-- `logrus.ErrorKey`. -/
def errorKey : String := "error"

/-- The `file` field key (holds `utils.FileWithLineNum()`). -/
def fileKey : String := "file"

/-- The `slowLog` field key. -/
def slowLogKey : String := "slowLog"

/-- One structured emission produced by `Trace`. -/
structure Emission where
  level : Level
  ctx : Context
  fields : List (String × FieldVal)
  msg : String
deriving DecidableEq, Repr

/-- An observable event of a `Trace` call: an invocation of the lazy
callback, or an emission to the sink. -/
inductive TraceEvent where
  | invoke
  | emit (e : Emission)
deriving DecidableEq, Repr

/-- Whether a trace event is an invocation of the lazy callback. -/
def isInvoke : TraceEvent → Bool
  | TraceEvent.invoke => true
  | TraceEvent.emit _ => false

/-- One leveled call forwarded to the sink by `Info`/`Warn`/`Error`:
`l.log.WithContext(ctx).Levelf(msg, data...)`. -/
structure MsgCall where
  sink : OptSinkRef
  level : Level
  ctx : Context
  fmt : String
  args : List GoValue
deriving DecidableEq, Repr

/-- Round-half-to-even division of naturals (the rounding `%.3f` performs). -/
def roundHalfEvenDiv (n d : Nat) : Nat :=
  let q := n / d
  let r := n % d
  if 2 * r > d then q + 1
  else if 2 * r < d then q
  else if q % 2 == 0 then q else q + 1

/-- Left-pad a natural below 1000 to three decimal digits. -/
def pad3 (n : Nat) : String :=
  if n < 10 then "00" ++ toString n
  else if n < 100 then "0" ++ toString n
  else toString n

/-- `%.3f` applied to `float64(ns)/1e6` (milliseconds with three decimals),
modelled as exact rounding of nanoseconds to microseconds. -/
def fmtF3ms (ns : Int) : String :=
  let sign := if ns < 0 then "-" else ""
  let micro := roundHalfEvenDiv ns.natAbs 1000
  sign ++ toString (micro / 1000) ++ "." ++ pad3 (micro % 1000)

/-- Go `time`'s `fmtFrac`: the fractional digits of `v` over `10 ^ prec`,
trailing zeros (and an all-zero fraction's decimal point) omitted; also
returns `v / 10 ^ prec`. Accumulator-passing mirror of the buffer walk. -/
def fmtFracGo : Nat → Nat → Bool → String → String × Nat
  | 0, v, pr, acc => (if pr then "." ++ acc else "", v)
  | p + 1, v, pr, acc =>
      let digit := v % 10
      let pr2 := pr || decide (digit ≠ 0)
      let acc2 := if pr2 then (Char.ofNat (48 + digit)).toString ++ acc else acc
      fmtFracGo p (v / 10) pr2 acc2

/-- Go `time`'s `fmtInt`: decimal rendering of a natural. -/
def fmtIntGo (n : Nat) : String := toString n

/-- `time.Duration.String` (what `%v` renders for the slow threshold),
translated from Go's `time.(Duration).format`. -/
def durationString (d : Int) : String :=
  let u := d.natAbs
  let core :=
    if u < 1000000000 then
      if u == 0 then "0s"
      else if u < 1000 then fmtIntGo u ++ "ns"
      else if u < 1000000 then
        let fr := fmtFracGo 3 u false ""
        fmtIntGo fr.2 ++ fr.1 ++ "µs"
      else
        let fr := fmtFracGo 6 u false ""
        fmtIntGo fr.2 ++ fr.1 ++ "ms"
    else
      let fr := fmtFracGo 9 u false ""
      let sec := fr.2
      let rest := sec / 60
      let sPart := fmtIntGo (sec % 60) ++ fr.1 ++ "s"
      if rest == 0 then sPart
      else
        let mPart := fmtIntGo (rest % 60) ++ "m" ++ sPart
        if rest / 60 == 0 then mPart else fmtIntGo (rest / 60) ++ "h" ++ mPart
  if d < 0 then "-" ++ core else core

/-- The message body `"[%.3fms] [rows:%v] %s"` shared by all three buckets;
a row count of `-1` is passed as the literal `"-"` (the `rows == -1` branch
of each bucket in the source). -/
def traceMsg (elapsed rows : Int) (sql : String) : String :=
  "[" ++ fmtF3ms elapsed ++ "ms] [rows:" ++
    (if rows == -1 then "-" else toString rows) ++ "] " ++ sql

/-- The error-bucket guard of the `switch` in `Trace`:
`err != nil && (!errors.Is(err, gorm.ErrRecordNotFound) || !l.cfg.IgnoreRecordNotFoundError)`. -/
def errBucketCond (err : Option GoError) (ignore : Bool) : Bool :=
  match err with
  | none => false
  | some e => !errorsIsRecordNotFound e || !ignore

/-- `(*Logger).LogMode`: copy the receiver, replace `cfg.LogLevel`. -/
def Logger.LogMode (l : Logger) (level : LogLevel) : Logger :=
  { l with cfg := { l.cfg with LogLevel := level } }

/-- `(*Logger).Info`: forward one formatted call to the sink at info level. -/
def Logger.Info (l : Logger) (ctx : Context) (msg : String) (data : List GoValue) :
    List MsgCall :=
  [{ sink := l.log, level := Level.info, ctx := ctx, fmt := msg, args := data }]

/-- `(*Logger).Warn`: forward one formatted call to the sink at warn level. -/
def Logger.Warn (l : Logger) (ctx : Context) (msg : String) (data : List GoValue) :
    List MsgCall :=
  [{ sink := l.log, level := Level.warn, ctx := ctx, fmt := msg, args := data }]

/-- `(*Logger).Error`: forward one formatted call to the sink at error level. -/
def Logger.Error (l : Logger) (ctx : Context) (msg : String) (data : List GoValue) :
    List MsgCall :=
  [{ sink := l.log, level := Level.error, ctx := ctx, fmt := msg, args := data }]

/-- `(*Logger).Trace`. `beginT` and `now` are nanosecond timestamps
(`elapsed := time.Since(begin)` becomes `now - beginT`); `fc` is the lazy
callback producing the statement text and row count; the result is the
event sequence of the call. -/
def Logger.Trace (l : Logger) (ctx : Context) (beginT now : Int)
    (fc : Unit → String × Int) (err : Option GoError) : List TraceEvent :=
  let elapsed := now - beginT
  if errBucketCond err l.cfg.IgnoreRecordNotFoundError then
    let res := fc ()
    [TraceEvent.invoke,
     TraceEvent.emit
       { level := Level.error, ctx := ctx,
         fields := [(fileKey, FieldVal.fileWithLineNum), (errorKey, FieldVal.errVal err)],
         msg := traceMsg elapsed res.2 res.1 }]
  else if elapsed > l.cfg.SlowThreshold ∧ l.cfg.SlowThreshold ≠ 0 then
    let res := fc ()
    let slowLog := "SLOW SQL >= " ++ durationString l.cfg.SlowThreshold
    [TraceEvent.invoke,
     TraceEvent.emit
       { level := Level.warn, ctx := ctx,
         fields := [(fileKey, FieldVal.fileWithLineNum), (slowLogKey, FieldVal.str slowLog)],
         msg := traceMsg elapsed res.2 res.1 }]
  else
    let res := fc ()
    [TraceEvent.invoke,
     TraceEvent.emit
       { level := Level.debug, ctx := ctx,
         fields := [(fileKey, FieldVal.fileWithLineNum)],
         msg := traceMsg elapsed res.2 res.1 }]

/-- The `options` struct assembled by `New`. -/
structure OptionsRec where
  log : OptSinkRef
  cfg : Config
deriving DecidableEq, Repr

/-- The Go `Option` type: a mutator of the working `options` value.
(Named `GOption` because `Option` is taken by Lean.) -/
abbrev GOption := OptionsRec → OptionsRec

/-- `WithLogger`: attach an external logger handle (possibly nil). -/
def WithLogger (log : OptSinkRef) : GOption := fun o => { o with log := log }

/-- `WithConfig`: attach a full configuration value. -/
def WithConfig (cfg : Config) : GOption := fun o => { o with cfg := cfg }

/-- The zero value of `options` that `New` starts from. -/
def defaultOptions : OptionsRec := { log := none, cfg := zeroConfig }

/-- The option-application loop of `New`: each option mutates the working
options value, in sequence order. -/
def applyOpts (opts : List GOption) (o : OptionsRec) : OptionsRec :=
  opts.foldl (fun acc f => f acc) o

/-- `New`: apply the options in order, fall back to `logrus.StandardLogger()`
when no logger handle was supplied, and build the adapter. -/
def New (opts : List GOption) : Logger :=
  let opt := applyOpts opts defaultOptions
  let opt2 := if opt.log.isNone then { opt with log := some standardLogger } else opt
  { log := opt2.log, cfg := opt2.cfg }

/-- Sample configuration: all-zero (slow-query detection disabled). -/
def cfg0 : Config := zeroConfig

/-- Sample adapter over sink 7 with the zero configuration. -/
def l0 : Logger := { log := some 7, cfg := cfg0 }

/-- Sample adapter with a 100ms slow threshold. -/
def lSlow : Logger := { log := some 7, cfg := { cfg0 with SlowThreshold := 100000000 } }

/-- Sample adapter with a negative slow threshold. -/
def lNeg : Logger := { log := some 7, cfg := { cfg0 with SlowThreshold := -1 } }

/-- Sample adapter that ignores record-not-found errors. -/
def lIgnore : Logger := { log := some 7, cfg := { cfg0 with IgnoreRecordNotFoundError := true } }

/-- Sample lazy callback: a statement with row count 3. -/
def fc0 : Unit → String × Int := fun _ => ("SELECT 1", 3)

/-- Sample lazy callback: a statement with the unknown row count -1. -/
def fcDash : Unit → String × Int := fun _ => ("SELECT * FROM users", -1)

/-- The normal-bucket emission of `l0.Trace 0 0 5000000 fcDash none`. -/
def eDash : Emission :=
  { level := Level.debug, ctx := 0, fields := [(fileKey, FieldVal.fileWithLineNum)],
    msg := "[5.000ms] [rows:-] SELECT * FROM users" }

/-- Closed form of `Logger.Trace`: the three-way `switch` of src/logger.go. -/
lemma trace_unfold (l : Logger) (ctx : Context) (beginT now : Int)
    (fc : Unit → String × Int) (err : Option GoError) :
    l.Trace ctx beginT now fc err =
      if errBucketCond err l.cfg.IgnoreRecordNotFoundError = true then
        [TraceEvent.invoke,
         TraceEvent.emit
           { level := Level.error, ctx := ctx,
             fields := [(fileKey, FieldVal.fileWithLineNum), (errorKey, FieldVal.errVal err)],
             msg := traceMsg (now - beginT) (fc ()).2 (fc ()).1 }]
      else if now - beginT > l.cfg.SlowThreshold ∧ l.cfg.SlowThreshold ≠ 0 then
        [TraceEvent.invoke,
         TraceEvent.emit
           { level := Level.warn, ctx := ctx,
             fields := [(fileKey, FieldVal.fileWithLineNum),
               (slowLogKey, FieldVal.str ("SLOW SQL >= " ++ durationString l.cfg.SlowThreshold))],
             msg := traceMsg (now - beginT) (fc ()).2 (fc ()).1 }]
      else
        [TraceEvent.invoke,
         TraceEvent.emit
           { level := Level.debug, ctx := ctx,
             fields := [(fileKey, FieldVal.fileWithLineNum)],
             msg := traceMsg (now - beginT) (fc ()).2 (fc ()).1 }] := rfl

/-- The error-bucket guard holds exactly when the error is non-nil and is
either not the record-not-found sentinel or the ignore flag is off. -/
lemma errBucketCond_iff (err : Option GoError) (flag : Bool) :
    errBucketCond err flag = true ↔
      ∃ ge, err = some ge ∧ (errorsIsRecordNotFound ge = false ∨ flag = false) := by
  cases err with
  | none => simp [errBucketCond]
  | some e => cases h : errorsIsRecordNotFound e <;> cases flag <;> simp [errBucketCond, h]

/-- C1: the error bucket (an error-severity emission carrying the
source-location field and the error under the reserved error key) fires if
and only if the error is non-nil AND (it is not the record-not-found
sentinel OR the ignore-record-not-found flag is false); otherwise (in
particular for the sentinel with the flag set) the call falls through to
the slow/normal classification. -/
theorem trace_error_bucket (l : Logger) (ctx : Context) (beginT now : Int)
    (fc : Unit → String × Int) (err : Option GoError) :
    (∃ e, TraceEvent.emit e ∈ l.Trace ctx beginT now fc err ∧ e.level = Level.error ∧
        (fileKey, FieldVal.fileWithLineNum) ∈ e.fields ∧
        (errorKey, FieldVal.errVal err) ∈ e.fields) ↔
      ∃ ge, err = some ge ∧
        (errorsIsRecordNotFound ge = false ∨ l.cfg.IgnoreRecordNotFoundError = false) := by
  rw [← errBucketCond_iff err l.cfg.IgnoreRecordNotFoundError, trace_unfold]
  cases h : errBucketCond err l.cfg.IgnoreRecordNotFoundError with
  | true => simp
  | false =>
      simp only [Bool.false_eq_true, if_false, iff_false]
      split <;> simp

/-- C1 witness: a non-sentinel error lands in the error bucket. -/
theorem trace_error_bucket_witness :
    ∃ e, TraceEvent.emit e ∈ l0.Trace 0 0 5 fc0 (some (GoError.other "boom")) ∧
      e.level = Level.error ∧
      (fileKey, FieldVal.fileWithLineNum) ∈ e.fields ∧
      (errorKey, FieldVal.errVal (some (GoError.other "boom"))) ∈ e.fields :=
  (trace_error_bucket l0 0 0 5 fc0 (some (GoError.other "boom"))).mpr
    ⟨GoError.other "boom", rfl, Or.inl rfl⟩

/-- C2: when the error bucket does not fire, the slow bucket (a warn
emission tagged "SLOW SQL >= threshold") fires iff the threshold is
nonzero and elapsed strictly exceeds it; otherwise the normal bucket fires,
a debug emission whose fields hold the source-location tag only. -/
theorem trace_slow_normal (l : Logger) (ctx : Context) (beginT now : Int)
    (fc : Unit → String × Int) (err : Option GoError)
    (h : errBucketCond err l.cfg.IgnoreRecordNotFoundError = false) :
    ((l.cfg.SlowThreshold ≠ 0 ∧ now - beginT > l.cfg.SlowThreshold) →
      l.Trace ctx beginT now fc err =
        [TraceEvent.invoke,
         TraceEvent.emit
           { level := Level.warn, ctx := ctx,
             fields := [(fileKey, FieldVal.fileWithLineNum),
               (slowLogKey, FieldVal.str ("SLOW SQL >= " ++ durationString l.cfg.SlowThreshold))],
             msg := traceMsg (now - beginT) (fc ()).2 (fc ()).1 }]) ∧
    (¬(l.cfg.SlowThreshold ≠ 0 ∧ now - beginT > l.cfg.SlowThreshold) →
      l.Trace ctx beginT now fc err =
        [TraceEvent.invoke,
         TraceEvent.emit
           { level := Level.debug, ctx := ctx,
             fields := [(fileKey, FieldVal.fileWithLineNum)],
             msg := traceMsg (now - beginT) (fc ()).2 (fc ()).1 }]) := by
  constructor
  · intro hs
    rw [trace_unfold, if_neg (by simp [h]), if_pos ⟨hs.2, hs.1⟩]
  · intro hs
    rw [trace_unfold, if_neg (by simp [h]), if_neg (fun hc => hs ⟨hc.2, hc.1⟩)]

/-- C2 witness: 150ms elapsed against a 100ms threshold is a slow query. -/
theorem trace_slow_normal_witness :
    lSlow.Trace 0 0 150000000 fc0 none =
      [TraceEvent.invoke,
       TraceEvent.emit
         { level := Level.warn, ctx := 0,
           fields := [(fileKey, FieldVal.fileWithLineNum),
             (slowLogKey, FieldVal.str "SLOW SQL >= 100ms")],
           msg := "[150.000ms] [rows:3] SELECT 1" }] :=
  ((trace_slow_normal lSlow 0 0 150000000 fc0 none (by decide)).1 (by decide)).trans
    (by decide)

/-- C3: a mode change yields an instance whose configured level is the
argument, whose every other configuration field and sink equal the
receiver's, and (the embedding being pure value copying, as the Go code
copies the struct) further mode changes on the derived instance never
alter what the first mode change produced. -/
theorem logMode_copy (l : Logger) (level : LogLevel) :
    (l.LogMode level).cfg.LogLevel = level ∧
    (l.LogMode level).cfg.SlowThreshold = l.cfg.SlowThreshold ∧
    (l.LogMode level).cfg.Colorful = l.cfg.Colorful ∧
    (l.LogMode level).cfg.IgnoreRecordNotFoundError = l.cfg.IgnoreRecordNotFoundError ∧
    (l.LogMode level).cfg.ParameterizedQueries = l.cfg.ParameterizedQueries ∧
    (l.LogMode level).log = l.log ∧
    (∀ level2 : LogLevel, ((l.LogMode level).LogMode level2).cfg.LogLevel = level2 ∧
        (l.LogMode level).cfg.LogLevel = level) :=
  ⟨rfl, rfl, rfl, rfl, rfl, rfl, fun _ => ⟨rfl, rfl⟩⟩

/-- C3 witness: mode change to level 2 on the sample adapter. -/
theorem logMode_copy_witness :
    (l0.LogMode 2).cfg.LogLevel = 2 ∧
    (l0.LogMode 2).cfg.SlowThreshold = l0.cfg.SlowThreshold :=
  ⟨(logMode_copy l0 2).1, (logMode_copy l0 2).2.1⟩

/-- C4: every Trace call invokes the lazy callback exactly once,
whichever bucket it is classified into. -/
theorem trace_invokes_once (l : Logger) (ctx : Context) (beginT now : Int)
    (fc : Unit → String × Int) (err : Option GoError) :
    (l.Trace ctx beginT now fc err).countP isInvoke = 1 := by
  rw [trace_unfold]
  split
  · rfl
  · split <;> rfl

/-- C4 witness: one callback invocation on a concrete call. -/
theorem trace_invokes_once_witness :
    (l0.Trace 0 0 5 fc0 none).countP isInvoke = 1 :=
  trace_invokes_once l0 0 0 5 fc0 none

/-- C5: in every bucket, the emitted message body is the elapsed
milliseconds to three decimals, the row count (-1 rendered as the literal
"-", any other integer as its decimal value), and the statement text. -/
theorem trace_msg_body (l : Logger) (ctx : Context) (beginT now : Int)
    (fc : Unit → String × Int) (err : Option GoError) (e : Emission)
    (h : TraceEvent.emit e ∈ l.Trace ctx beginT now fc err) :
    e.msg = "[" ++ fmtF3ms (now - beginT) ++ "ms] [rows:" ++
      (if (fc ()).2 == -1 then "-" else toString (fc ()).2) ++ "] " ++ (fc ()).1 := by
  rw [trace_unfold] at h
  split at h
  · simp at h
    subst h
    rfl
  · split at h
    · simp at h
      subst h
      rfl
    · simp at h
      subst h
      rfl

/-- C5 witness: an unknown row count of -1 renders as "-". -/
theorem trace_msg_body_witness :
    eDash.msg = "[" ++ fmtF3ms (5000000 - 0) ++ "ms] [rows:" ++
      (if (fcDash ()).2 == -1 then "-" else toString (fcDash ()).2) ++ "] " ++ (fcDash ()).1 :=
  trace_msg_body l0 0 0 5000000 fcDash none eDash (by decide)

/-- C6: Info, Warn and Error each forward exactly one formatted call to
the sink at the matching severity, independent of the configured level. -/
theorem leveled_forward :
    (∀ (lg : OptSinkRef) (c c2 : Config) (ctx : Context) (msg : String) (data : List GoValue),
        (Logger.mk lg c).Info ctx msg data =
          [{ sink := lg, level := Level.info, ctx := ctx, fmt := msg, args := data }] ∧
        (Logger.mk lg c).Info ctx msg data = (Logger.mk lg c2).Info ctx msg data) ∧
    (∀ (lg : OptSinkRef) (c c2 : Config) (ctx : Context) (msg : String) (data : List GoValue),
        (Logger.mk lg c).Warn ctx msg data =
          [{ sink := lg, level := Level.warn, ctx := ctx, fmt := msg, args := data }] ∧
        (Logger.mk lg c).Warn ctx msg data = (Logger.mk lg c2).Warn ctx msg data) ∧
    (∀ (lg : OptSinkRef) (c c2 : Config) (ctx : Context) (msg : String) (data : List GoValue),
        (Logger.mk lg c).Error ctx msg data =
          [{ sink := lg, level := Level.error, ctx := ctx, fmt := msg, args := data }] ∧
        (Logger.mk lg c).Error ctx msg data = (Logger.mk lg c2).Error ctx msg data) :=
  ⟨fun _ _ _ _ _ _ => ⟨rfl, rfl⟩, fun _ _ _ _ _ _ => ⟨rfl, rfl⟩,
   fun _ _ _ _ _ _ => ⟨rfl, rfl⟩⟩

/-- C6 witness: a concrete Info call forwards once at info severity. -/
theorem leveled_forward_witness :
    l0.Info 0 "took %d ms" [5] =
      [{ sink := some 7, level := Level.info, ctx := 0, fmt := "took %d ms", args := [5] }] :=
  (leveled_forward.1 (some 7) cfg0 cfg0 0 "took %d ms" [5]).1

/-- C7: New applies its options in order (a later option overrides an
earlier one on the same field), and when no logger handle was supplied
after all options ran, the sink is the process-wide default logger. -/
theorem new_options_order :
    (∀ (pre : List GOption) (c c2 : Config),
        (New (pre ++ [WithConfig c, WithConfig c2])).cfg = c2) ∧
    (∀ (pre : List GOption) (r r2 : SinkRef),
        (New (pre ++ [WithLogger (some r), WithLogger (some r2)])).log = some r2) ∧
    (∀ opts : List GOption,
        (applyOpts opts defaultOptions).log = none →
          (New opts).log = some standardLogger) := by
  refine ⟨?_, ?_, ?_⟩
  · intro pre c c2
    simp only [New, applyOpts, List.foldl_append, List.foldl_cons, List.foldl_nil,
      WithConfig, WithLogger]
    split <;> rfl
  · intro pre r r2
    simp [New, applyOpts, List.foldl_append, WithConfig, WithLogger]
  · intro opts h
    simp [New, h]

/-- C7 witness: the later of two configs wins, and New with no options
falls back to the default logger. -/
theorem new_options_order_witness :
    (New ([] ++ [WithConfig cfg0, WithConfig (Config.mk 100 true false false 3)])).cfg =
      Config.mk 100 true false false 3 ∧
    (New []).log = some standardLogger :=
  ⟨new_options_order.1 [] cfg0 (Config.mk 100 true false false 3),
   new_options_order.2.2 [] rfl⟩

/-- C8: a mode change copies the sink reference unchanged (the struct copy
is shallow in the logger handle), so the derived adapter forwards the
leveled emissions to the same sink as the original. -/
theorem logMode_shares_sink (l : Logger) (level : LogLevel) (ctx : Context)
    (msg : String) (data : List GoValue) :
    (l.LogMode level).log = l.log ∧
    (l.LogMode level).Info ctx msg data = l.Info ctx msg data ∧
    (l.LogMode level).Warn ctx msg data = l.Warn ctx msg data ∧
    (l.LogMode level).Error ctx msg data = l.Error ctx msg data :=
  ⟨rfl, rfl, rfl, rfl⟩

/-- C8 witness: the sample adapter's derived instance keeps sink 7. -/
theorem logMode_shares_sink_witness :
    (l0.LogMode 1).log = l0.log :=
  (logMode_shares_sink l0 1 0 "m" []).1

/-- C9: every adapter built by New has a non-nil sink; in particular
explicitly attaching a nil logger handle still yields the default logger. -/
theorem new_sink_nonnil :
    (∀ opts : List GOption, ((New opts).log).isSome = true) ∧
    (New [WithLogger none]).log = some standardLogger := by
  constructor
  · intro opts
    cases hl : (applyOpts opts defaultOptions).log with
    | none => simp [New, hl]
    | some r => simp [New, hl]
  · rfl

/-- C9 witness: New with a nil logger handle uses the default logger. -/
theorem new_sink_nonnil_witness :
    ((New [WithLogger none]).log).isSome = true :=
  new_sink_nonnil.1 [WithLogger none]

/-- C10: the slow guard tests nonzero, not positive, so a negative
threshold enables slow-query detection: with a negative threshold, no
error bucket, and positive elapsed time, the call lands in the slow
bucket (a warn emission carrying the slow-query tag). -/
theorem negative_threshold_slow (l : Logger) (ctx : Context) (beginT now : Int)
    (fc : Unit → String × Int) (err : Option GoError)
    (hthr : l.cfg.SlowThreshold < 0)
    (herr : errBucketCond err l.cfg.IgnoreRecordNotFoundError = false)
    (hel : 0 < now - beginT) :
    ∃ e, l.Trace ctx beginT now fc err = [TraceEvent.invoke, TraceEvent.emit e] ∧
      e.level = Level.warn ∧
      (slowLogKey, FieldVal.str ("SLOW SQL >= " ++ durationString l.cfg.SlowThreshold))
        ∈ e.fields := by
  rw [trace_unfold, if_neg (by simp [herr]), if_pos ⟨lt_trans hthr hel, hthr.ne⟩]
  exact ⟨_, rfl, rfl, by simp⟩

/-- C10 witness: threshold -1ns with 5ns elapsed is classified slow. -/
theorem negative_threshold_slow_witness :
    ∃ e, lNeg.Trace 0 0 5 fc0 none = [TraceEvent.invoke, TraceEvent.emit e] ∧
      e.level = Level.warn ∧
      (slowLogKey, FieldVal.str ("SLOW SQL >= " ++ durationString lNeg.cfg.SlowThreshold))
        ∈ e.fields :=
  negative_threshold_slow lNeg 0 0 5 fc0 none (by decide) (by decide) (by decide)

end GormLogrus
